import Mathlib

/-!
Shallow embedding of `Sweep_line_subcurve`
(Packages/Sweep_line_2/include/CGAL/Sweep_line_2/Sweep_line_subcurve.h).

The C++ class is a template over a traits class `SweepLineTraits_2`
providing `curve_source`, `curve_target`, `compare_xy` and `point_equal`.
We embed the traits as a record of functions and the subcurve as a record
whose fields mirror the C++ data members in declaration order.
`Comparison_result` (`SMALLER` / `EQUAL` / `LARGER`) is embedded as
`Ordering` (`.lt` / `.eq` / `.gt`).  The status-line iterator type of the
hint field is opaque to the class; it is embedded as `Nat` (a stable
handle, as the spec suggests).
-/

/-- The traits-class interface consumed by `Sweep_line_subcurve`. -/
structure SweepLineTraits (Point Curve : Type) where
  curve_source : Curve → Point
  curve_target : Curve → Point
  compare_xy : Point → Point → Ordering
  point_equal : Point → Point → Bool

/-- The state of a `Sweep_line_subcurve` object; fields mirror the C++
data members in their declaration order. -/
structure Sweep_line_subcurve (Point Curve : Type) where
  m_traits : SweepLineTraits Point Curve
  m_curve : Curve
  m_lastPoint : Point
  m_lastCurve : Curve
  m_lastSubCurve : Curve
  m_isRightSide : Bool
  m_source : Point
  m_target : Point
  m_hint : Nat

/-- `init(curve, traits)` with the `CGAL_assertion` compiled out (NDEBUG
semantics): assigns `m_traits`, `m_curve`, `m_source`, `m_target`, then
branches on `compare_xy(m_source, m_target)`; on `LARGER` it sets
`m_lastPoint = m_target`, `m_isRightSide = false`, otherwise (the branch
containing the assertion `res == SMALLER`) it sets `m_lastPoint = m_source`,
`m_isRightSide = true`; finally `m_lastCurve = curve`.  The fields
`m_lastSubCurve` and `m_hint` are not assigned. -/
def Sweep_line_subcurve.init {P C : Type} (s : Sweep_line_subcurve P C)
    (curve : C) (traits : SweepLineTraits P C) : Sweep_line_subcurve P C :=
  let source := traits.curve_source curve
  let target := traits.curve_target curve
  let res := traits.compare_xy source target
  if res = Ordering.gt then
    { s with m_traits := traits, m_curve := curve, m_source := source,
             m_target := target, m_lastPoint := target,
             m_isRightSide := false, m_lastCurve := curve }
  else
    { s with m_traits := traits, m_curve := curve, m_source := source,
             m_target := target, m_lastPoint := source,
             m_isRightSide := true, m_lastCurve := curve }

/-- `init(curve, traits)` with assertions enabled: in the `else` branch the
statement `CGAL_assertion(res == SMALLER)` aborts when
`compare_xy(m_source, m_target)` is `EQUAL`, which we embed as `none`. -/
def Sweep_line_subcurve.initChecked {P C : Type} (s : Sweep_line_subcurve P C)
    (curve : C) (traits : SweepLineTraits P C) :
    Option (Sweep_line_subcurve P C) :=
  let source := traits.curve_source curve
  let target := traits.curve_target curve
  let res := traits.compare_xy source target
  if res = Ordering.gt then
    some { s with m_traits := traits, m_curve := curve, m_source := source,
                  m_target := target, m_lastPoint := target,
                  m_isRightSide := false, m_lastCurve := curve }
  else if res = Ordering.lt then
    some { s with m_traits := traits, m_curve := curve, m_source := source,
                  m_target := target, m_lastPoint := source,
                  m_isRightSide := true, m_lastCurve := curve }
  else
    none

/-- The two-argument constructor `Sweep_line_subcurve(curve, traits)`
(assertion compiled out).  Its body is identical to `init`; the fields
`m_lastSubCurve` and `m_hint` are left default-initialized, which we model
by the parameters `sub0` and `hint0` standing for those indeterminate
initial values. -/
def Sweep_line_subcurve.construct {P C : Type} (curve : C)
    (traits : SweepLineTraits P C) (sub0 : C) (hint0 : Nat) :
    Sweep_line_subcurve P C :=
  let source := traits.curve_source curve
  let target := traits.curve_target curve
  let res := traits.compare_xy source target
  if res = Ordering.gt then
    ⟨traits, curve, target, curve, sub0, false, source, target, hint0⟩
  else
    ⟨traits, curve, source, curve, sub0, true, source, target, hint0⟩

/-- The two-argument constructor with assertions enabled: aborts (`none`)
when `compare_xy(m_source, m_target)` is `EQUAL`. -/
def Sweep_line_subcurve.constructChecked {P C : Type} (curve : C)
    (traits : SweepLineTraits P C) (sub0 : C) (hint0 : Nat) :
    Option (Sweep_line_subcurve P C) :=
  let source := traits.curve_source curve
  let target := traits.curve_target curve
  let res := traits.compare_xy source target
  if res = Ordering.gt then
    some ⟨traits, curve, target, curve, sub0, false, source, target, hint0⟩
  else if res = Ordering.lt then
    some ⟨traits, curve, source, curve, sub0, true, source, target, hint0⟩
  else
    none

/-- `get_curve()`. -/
def Sweep_line_subcurve.get_curve {P C : Type}
    (s : Sweep_line_subcurve P C) : C :=
  s.m_curve

/-- `get_last_point()`. -/
def Sweep_line_subcurve.get_last_point {P C : Type}
    (s : Sweep_line_subcurve P C) : P :=
  s.m_lastPoint

/-- `set_last_point(point)`: `m_lastPoint = point`, no validation. -/
def Sweep_line_subcurve.set_last_point {P C : Type}
    (s : Sweep_line_subcurve P C) (point : P) : Sweep_line_subcurve P C :=
  { s with m_lastPoint := point }

/-- `get_last_curve()`. -/
def Sweep_line_subcurve.get_last_curve {P C : Type}
    (s : Sweep_line_subcurve P C) : C :=
  s.m_lastCurve

/-- `set_last_curve(cv)`: `m_lastCurve = cv`. -/
def Sweep_line_subcurve.set_last_curve {P C : Type}
    (s : Sweep_line_subcurve P C) (cv : C) : Sweep_line_subcurve P C :=
  { s with m_lastCurve := cv }

/-- `get_last_subcurve()`. -/
def Sweep_line_subcurve.get_last_subcurve {P C : Type}
    (s : Sweep_line_subcurve P C) : C :=
  s.m_lastSubCurve

/-- `set_last_subcurve(cv)`: `m_lastSubCurve = cv`. -/
def Sweep_line_subcurve.set_last_subcurve {P C : Type}
    (s : Sweep_line_subcurve P C) (cv : C) : Sweep_line_subcurve P C :=
  { s with m_lastSubCurve := cv }

/-- `is_source_left_to_target()`: returns `m_isRightSide`. -/
def Sweep_line_subcurve.is_source_left_to_target {P C : Type}
    (s : Sweep_line_subcurve P C) : Bool :=
  s.m_isRightSide

/-- `is_source(p)`: `m_traits->point_equal(p, m_source)`. -/
def Sweep_line_subcurve.is_source {P C : Type}
    (s : Sweep_line_subcurve P C) (p : P) : Bool :=
  s.m_traits.point_equal p s.m_source

/-- `is_target(p)`: `m_traits->point_equal(p, m_target)`. -/
def Sweep_line_subcurve.is_target {P C : Type}
    (s : Sweep_line_subcurve P C) (p : P) : Bool :=
  s.m_traits.point_equal p s.m_target

/-- `is_end_point(p)`: `is_target(p) || is_source(p)`. -/
def Sweep_line_subcurve.is_end_point {P C : Type}
    (s : Sweep_line_subcurve P C) (p : P) : Bool :=
  s.is_target p || s.is_source p

/-- `get_source()`. -/
def Sweep_line_subcurve.get_source {P C : Type}
    (s : Sweep_line_subcurve P C) : P :=
  s.m_source

/-- `get_target()`. -/
def Sweep_line_subcurve.get_target {P C : Type}
    (s : Sweep_line_subcurve P C) : P :=
  s.m_target

/-- `is_left_end(p)`: true when the source is left of the target and `p`
is the source, or the source is right of the target and `p` is the
target; false otherwise. -/
def Sweep_line_subcurve.is_left_end {P C : Type}
    (s : Sweep_line_subcurve P C) (p : P) : Bool :=
  (s.is_source_left_to_target && s.is_source p) ||
    (!s.is_source_left_to_target && s.is_target p)

/-- `is_right_end(p)`. -/
def Sweep_line_subcurve.is_right_end {P C : Type}
    (s : Sweep_line_subcurve P C) (p : P) : Bool :=
  (s.is_source_left_to_target && s.is_target p) ||
    (!s.is_source_left_to_target && s.is_source p)

/-- `get_right_end()`: `m_target` when the source is left of the target,
`m_source` otherwise. -/
def Sweep_line_subcurve.get_right_end {P C : Type}
    (s : Sweep_line_subcurve P C) : P :=
  if s.is_source_left_to_target then s.m_target else s.m_source

/-- `get_left_end()`: `m_source` when the source is left of the target,
`m_target` otherwise. -/
def Sweep_line_subcurve.get_left_end {P C : Type}
    (s : Sweep_line_subcurve P C) : P :=
  if s.is_source_left_to_target then s.m_source else s.m_target

/-- `set_hint(hint)`: `m_hint = hint`. -/
def Sweep_line_subcurve.set_hint {P C : Type}
    (s : Sweep_line_subcurve P C) (hint : Nat) : Sweep_line_subcurve P C :=
  { s with m_hint := hint }

/-- `get_hint()`. -/
def Sweep_line_subcurve.get_hint {P C : Type}
    (s : Sweep_line_subcurve P C) : Nat :=
  s.m_hint

/-!
A concrete instantiation of the traits interface: points are pairs of
integers, curves are straight segments given by their two endpoints.
`compare_xy` is the lexicographic order with `x` primary and `y`
secondary (the sweep order of the spec), `point_equal` is equality.
-/

/-- A concrete point: a pair of integer coordinates. -/
abbrev IntPoint := Int × Int

/-- A concrete x-monotone curve: a straight segment between two points. -/
structure IntSegment where
  source : IntPoint
  target : IntPoint
deriving DecidableEq, Repr

/-- Lexicographic comparison of points, `x` primary, `y` secondary. -/
def compareXY (p q : IntPoint) : Ordering :=
  if p.1 < q.1 then Ordering.lt
  else if q.1 < p.1 then Ordering.gt
  else if p.2 < q.2 then Ordering.lt
  else if q.2 < p.2 then Ordering.gt
  else Ordering.eq

/-- The concrete traits instance over integer points and segments. -/
def intTraits : SweepLineTraits IntPoint IntSegment where
  curve_source := fun c => c.source
  curve_target := fun c => c.target
  compare_xy := compareXY
  point_equal := fun p q => decide (p = q)

/-!
Rational points and straight segments, used for the status-line
comparator (whose C++ implementation, `Status_line_curve_less_functor`
in `Sweep_line_functors.h`, is outside the available sources and is
modelled from the spec below).
-/

/-- A point with rational coordinates. -/
abbrev RatPoint := ℚ × ℚ

/-- An x-monotone straight segment with rational endpoints. -/
structure RatSegment where
  source : RatPoint
  target : RatPoint

/-- The y-coordinate of a non-vertical segment at abscissa `x`. -/
def yAt (c : RatSegment) (x : ℚ) : ℚ :=
  c.source.2 +
    (c.target.2 - c.source.2) * (x - c.source.1) / (c.target.1 - c.source.1)

/-- The slope of a non-vertical segment. -/
def slopeOf (c : RatSegment) : ℚ :=
  (c.target.2 - c.source.2) / (c.target.1 - c.source.1)

/-- The segment is x-monotone (non-vertical) and its x-range contains the
reference position `x`: the curve is active at `x`. -/
def activeAt (c : RatSegment) (x : ℚ) : Prop :=
  c.source.1 ≠ c.target.1 ∧
    min c.source.1 c.target.1 ≤ x ∧ x ≤ max c.source.1 c.target.1

/-- Modelled from the spec: the status-line ordering functor
`Status_line_curve_less_functor` (declared in `Sweep_line_functors.h`,
which is not among the available sources; only the typedef
`StatusLineCurveLess` appears in `Sweep_line_subcurve.h`).  Per the spec
it orders two subcurves by their y-value at an externally supplied
reference x-position, and at a position where the two curves meet
(a tie, where a raw y-comparison is degenerate) it compares their
slopes — the relative direction immediately past that point. -/
def status_line_curve_less (x : ℚ)
    (a b : Sweep_line_subcurve RatPoint RatSegment) : Bool :=
  if yAt a.m_curve x < yAt b.m_curve x then true
  else if yAt a.m_curve x = yAt b.m_curve x then
    decide (slopeOf a.m_curve < slopeOf b.m_curve)
  else false

/-- The concrete traits instance over rational points and segments. -/
def ratTraits : SweepLineTraits RatPoint RatSegment where
  curve_source := fun c => c.source
  curve_target := fun c => c.target
  compare_xy := fun p q =>
    if p.1 < q.1 then Ordering.lt
    else if q.1 < p.1 then Ordering.gt
    else if p.2 < q.2 then Ordering.lt
    else if q.2 < p.2 then Ordering.gt
    else Ordering.eq
  point_equal := fun p q => decide (p = q)

/-!
Geometry on integer segments, used to state the `lastPoint` invariant:
membership of a point on a segment, and the sweep order as a `≤`-style
relation corresponding to `compareXY`.
-/

/-- `p` lies on the straight segment `c`: it is collinear with the two
endpoints and within their bounding box. -/
def onSegment (c : IntSegment) (p : IntPoint) : Bool :=
  decide ((c.target.1 - c.source.1) * (p.2 - c.source.2) =
          (c.target.2 - c.source.2) * (p.1 - c.source.1)) &&
  decide (min c.source.1 c.target.1 ≤ p.1 ∧ p.1 ≤ max c.source.1 c.target.1) &&
  decide (min c.source.2 c.target.2 ≤ p.2 ∧ p.2 ≤ max c.source.2 c.target.2)

/-- The reflexive sweep order on points: lexicographic `≤` with `x`
primary and `y` secondary. -/
def lexLe (p q : IntPoint) : Prop :=
  p.1 < q.1 ∨ (p.1 = q.1 ∧ p.2 ≤ q.2)

/-- A sequence of points is a valid `set_last_point` call sequence for a
subcurve currently at `last` on curve `c` when every point lies on `c`
and does not move left of its predecessor (the caller obligation of the
spec). -/
def ValidFrom (c : IntSegment) : IntPoint → List IntPoint → Prop
  | _, [] => True
  | last, p :: ps =>
      onSegment c p = true ∧ compareXY last p ≠ Ordering.gt ∧ ValidFrom c p ps

/-- Apply a sequence of `set_last_point` calls from left to right. -/
def applyLastPoints {P C : Type} (s : Sweep_line_subcurve P C)
    (ps : List P) : Sweep_line_subcurve P C :=
  ps.foldl Sweep_line_subcurve.set_last_point s

/-- `compareXY p q` is not `LARGER` exactly when `p` is at or left of `q`
in the sweep order. -/
theorem compareXY_ne_gt_iff (p q : IntPoint) :
    compareXY p q ≠ Ordering.gt ↔ lexLe p q := by
  unfold compareXY lexLe
  split_ifs with h1 h2 h3 h4 <;> simp <;> omega

/-- `lexLe` is reflexive. -/
theorem lexLe_refl (p : IntPoint) : lexLe p p :=
  Or.inr ⟨rfl, le_refl _⟩

/-- `lexLe` is transitive. -/
theorem lexLe_trans {p q r : IntPoint} (h1 : lexLe p q) (h2 : lexLe q r) :
    lexLe p r := by
  unfold lexLe at *
  omega

/-- The source endpoint lies on its own segment. -/
theorem onSegment_source (c : IntSegment) : onSegment c c.source = true := by
  rcases c with ⟨⟨sx, sy⟩, ⟨tx, ty⟩⟩
  simp [onSegment]

/-- The target endpoint lies on its own segment. -/
theorem onSegment_target (c : IntSegment) : onSegment c c.target = true := by
  rcases c with ⟨⟨sx, sy⟩, ⟨tx, ty⟩⟩
  simp [onSegment]
  ring

/-- A throwaway segment standing for a default-initialized curve field. -/
def dummySeg : IntSegment := ⟨(0, 0), (0, 0)⟩

/-- A concrete pre-state to initialize from (the C++ default-constructed
object, all members indeterminate). -/
def blankSub : Sweep_line_subcurve IntPoint IntSegment :=
  ⟨intTraits, dummySeg, (0, 0), dummySeg, dummySeg, false, (0, 0), (0, 0), 0⟩

/-- The segment of spec Scenario A, from (0,0) to (10,10). -/
def segA : IntSegment := ⟨(0, 0), (10, 10)⟩

/-- The subcurve of spec Scenario A. -/
def scenarioA : Sweep_line_subcurve IntPoint IntSegment :=
  Sweep_line_subcurve.construct segA intTraits dummySeg 0

/-- The segment of spec Scenario B, from (10,0) to (0,10). -/
def segB : IntSegment := ⟨(10, 0), (0, 10)⟩

/-- The subcurve of spec Scenario B. -/
def scenarioB : Sweep_line_subcurve IntPoint IntSegment :=
  Sweep_line_subcurve.construct segB intTraits dummySeg 0

/-- A degenerate segment whose two endpoints coincide. -/
def degSeg : IntSegment := ⟨(3, 4), (3, 4)⟩

/-- An `Ordering` other than `EQUAL` is `SMALLER` or `LARGER`. -/
theorem ordering_ne_eq {o : Ordering} (h : o ≠ Ordering.eq) :
    o = Ordering.lt ∨ o = Ordering.gt := by
  cases o <;> simp_all

/-- Folding a valid call sequence keeps `m_lastPoint` on the curve and
never moves it left of where it started. -/
theorem validFrom_fold (c : IntSegment) (ps : List IntPoint) :
    ∀ s : Sweep_line_subcurve IntPoint IntSegment,
      onSegment c s.m_lastPoint = true →
      ValidFrom c s.m_lastPoint ps →
      onSegment c (applyLastPoints s ps).m_lastPoint = true ∧
        lexLe s.m_lastPoint (applyLastPoints s ps).m_lastPoint := by
  induction ps with
  | nil =>
      intro s h0 _
      exact ⟨h0, lexLe_refl _⟩
  | cons p ps ih =>
      intro s h0 hv
      obtain ⟨hp, hle, hrest⟩ := hv
      have hfold : applyLastPoints s (p :: ps) =
          applyLastPoints (s.set_last_point p) ps := rfl
      have hstep : (s.set_last_point p).m_lastPoint = p := rfl
      have hrec := ih (s.set_last_point p) (by rw [hstep]; exact hp)
        (by rw [hstep]; exact hrest)
      rw [hfold]
      refine ⟨hrec.1, lexLe_trans ?_ hrec.2⟩
      rw [hstep]
      exact (compareXY_ne_gt_iff _ _).mp hle

/-- `status_line_curve_less` unfolded to its order-theoretic meaning:
strictly below at the reference position, or tied there with a strictly
smaller slope. -/
theorem status_line_curve_less_iff (x : ℚ)
    (a b : Sweep_line_subcurve RatPoint RatSegment) :
    status_line_curve_less x a b = true ↔
      (yAt a.m_curve x < yAt b.m_curve x ∨
        (yAt a.m_curve x = yAt b.m_curve x ∧
          slopeOf a.m_curve < slopeOf b.m_curve)) := by
  unfold status_line_curve_less
  split_ifs with h1 h2
  · simp [h1]
  · rw [h2]
    simp
  · simp [h1, h2]

/-- Field-by-field characterization of `init`. -/
theorem init_fields {P C : Type} (s : Sweep_line_subcurve P C) (curve : C)
    (traits : SweepLineTraits P C) :
    s.init curve traits =
      { m_traits := traits, m_curve := curve,
        m_lastPoint := if traits.compare_xy (traits.curve_source curve)
              (traits.curve_target curve) = Ordering.gt
          then traits.curve_target curve else traits.curve_source curve,
        m_lastCurve := curve, m_lastSubCurve := s.m_lastSubCurve,
        m_isRightSide := decide (traits.compare_xy (traits.curve_source curve)
          (traits.curve_target curve) ≠ Ordering.gt),
        m_source := traits.curve_source curve,
        m_target := traits.curve_target curve, m_hint := s.m_hint } := by
  unfold Sweep_line_subcurve.init
  split_ifs with h <;> simp [h]

/-- Field-by-field characterization of the constructor. -/
theorem construct_fields {P C : Type} (curve : C)
    (traits : SweepLineTraits P C) (sub0 : C) (hint0 : Nat) :
    Sweep_line_subcurve.construct curve traits sub0 hint0 =
      { m_traits := traits, m_curve := curve,
        m_lastPoint := if traits.compare_xy (traits.curve_source curve)
              (traits.curve_target curve) = Ordering.gt
          then traits.curve_target curve else traits.curve_source curve,
        m_lastCurve := curve, m_lastSubCurve := sub0,
        m_isRightSide := decide (traits.compare_xy (traits.curve_source curve)
          (traits.curve_target curve) ≠ Ordering.gt),
        m_source := traits.curve_source curve,
        m_target := traits.curve_target curve, m_hint := hint0 } := by
  unfold Sweep_line_subcurve.construct
  split_ifs with h <;> simp [h]

/-- C1: for an input curve whose endpoints compare unequal under the
kernel's `compare_xy`, both the constructor and `init` set source and
target from `curve_source`/`curve_target`, set `m_isRightSide` true
exactly when `compare_xy(source, target)` is `SMALLER`, set `m_lastPoint`
to the left endpoint, and set `m_lastCurve` to the full input curve. -/
theorem init_construct_sets_fields {P C : Type} (traits : SweepLineTraits P C)
    (curve : C) (s : Sweep_line_subcurve P C) (sub0 : C) (hint0 : Nat)
    (h : traits.compare_xy (traits.curve_source curve)
      (traits.curve_target curve) ≠ Ordering.eq) :
    ((s.init curve traits).get_source = traits.curve_source curve ∧
      (s.init curve traits).get_target = traits.curve_target curve ∧
      ((s.init curve traits).is_source_left_to_target = true ↔
        traits.compare_xy (traits.curve_source curve)
          (traits.curve_target curve) = Ordering.lt) ∧
      (s.init curve traits).get_last_point = (s.init curve traits).get_left_end ∧
      (s.init curve traits).get_last_curve = curve) ∧
    ((Sweep_line_subcurve.construct curve traits sub0 hint0).get_source =
        traits.curve_source curve ∧
      (Sweep_line_subcurve.construct curve traits sub0 hint0).get_target =
        traits.curve_target curve ∧
      ((Sweep_line_subcurve.construct curve traits sub0
          hint0).is_source_left_to_target = true ↔
        traits.compare_xy (traits.curve_source curve)
          (traits.curve_target curve) = Ordering.lt) ∧
      (Sweep_line_subcurve.construct curve traits sub0 hint0).get_last_point =
        (Sweep_line_subcurve.construct curve traits sub0 hint0).get_left_end ∧
      (Sweep_line_subcurve.construct curve traits sub0 hint0).get_last_curve =
        curve) := by
  rw [init_fields, construct_fields]
  rcases ordering_ne_eq h with hres | hres <;>
    simp [hres, Sweep_line_subcurve.get_source, Sweep_line_subcurve.get_target,
      Sweep_line_subcurve.is_source_left_to_target,
      Sweep_line_subcurve.get_last_point, Sweep_line_subcurve.get_left_end,
      Sweep_line_subcurve.get_last_curve]

/-- C1 witness: Scenario A, the curve from (0,0) to (10,10): construction
yields `m_isRightSide = true`, left endpoint (0,0), `m_lastPoint` (0,0)
and `m_lastCurve` the full curve. -/
theorem init_construct_sets_fields_witness :
    intTraits.compare_xy (intTraits.curve_source segA)
      (intTraits.curve_target segA) ≠ Ordering.eq ∧
    scenarioA.is_source_left_to_target = true ∧
    scenarioA.get_left_end = ((0 : Int), (0 : Int)) ∧
    scenarioA.get_last_point = ((0 : Int), (0 : Int)) ∧
    scenarioA.get_last_curve = segA := by
  have h := init_construct_sets_fields intTraits segA blankSub dummySeg 0
    (by decide)
  exact ⟨by decide, h.2.2.2.1.mpr (by decide), by decide, by decide,
    h.2.2.2.2.2⟩

/-- C2: constructing a subcurve from a degenerate curve, whose endpoints
compare `EQUAL` under the kernel, fails the assertion: with assertions
enabled, both `init` and the constructor reject the curve. -/
theorem degenerate_construction_rejected {P C : Type}
    (traits : SweepLineTraits P C) (curve : C) (s : Sweep_line_subcurve P C)
    (sub0 : C) (hint0 : Nat)
    (h : traits.compare_xy (traits.curve_source curve)
      (traits.curve_target curve) = Ordering.eq) :
    s.initChecked curve traits = none ∧
    Sweep_line_subcurve.constructChecked curve traits sub0 hint0 = none := by
  constructor <;>
    simp [Sweep_line_subcurve.initChecked, Sweep_line_subcurve.constructChecked,
      h]

/-- C2 witness: the degenerate segment from (3,4) to (3,4) is rejected. -/
theorem degenerate_construction_rejected_witness :
    intTraits.compare_xy (intTraits.curve_source degSeg)
      (intTraits.curve_target degSeg) = Ordering.eq ∧
    blankSub.initChecked degSeg intTraits = none ∧
    Sweep_line_subcurve.constructChecked degSeg intTraits dummySeg 0 = none := by
  have h := degenerate_construction_rejected intTraits degSeg blankSub dummySeg 0
    (by decide)
  exact ⟨by decide, h.1, h.2⟩

/-- C6: `set_last_curve` followed by `get_last_curve` returns exactly the
supplied segment, unchanged. -/
theorem set_get_last_curve_round_trip {P C : Type}
    (s : Sweep_line_subcurve P C) (cv : C) :
    (s.set_last_curve cv).get_last_curve = cv :=
  rfl

/-- C7: `is_end_point(p)` is true exactly when the kernel's point
equality reports `p` equal to the cached source or to the cached target. -/
theorem is_end_point_iff_kernel_equal {P C : Type}
    (s : Sweep_line_subcurve P C) (p : P) :
    s.is_end_point p = true ↔
      (s.m_traits.point_equal p s.m_source = true ∨
        s.m_traits.point_equal p s.m_target = true) := by
  simp [Sweep_line_subcurve.is_end_point, Sweep_line_subcurve.is_source,
    Sweep_line_subcurve.is_target, Bool.or_eq_true]
  tauto

/-- C8: each public mutator modifies only its own field; in particular
none of them changes `m_curve`, `m_source`, `m_target` or
`m_isRightSide`, which stays fixed for the subcurve's lifetime. -/
theorem mutators_preserve_other_fields {P C : Type}
    (s : Sweep_line_subcurve P C) (p : P) (cv cv2 : C) (hint : Nat) :
    ((s.set_last_point p).m_traits = s.m_traits ∧
      (s.set_last_point p).m_curve = s.m_curve ∧
      (s.set_last_point p).m_lastCurve = s.m_lastCurve ∧
      (s.set_last_point p).m_lastSubCurve = s.m_lastSubCurve ∧
      (s.set_last_point p).m_isRightSide = s.m_isRightSide ∧
      (s.set_last_point p).m_source = s.m_source ∧
      (s.set_last_point p).m_target = s.m_target ∧
      (s.set_last_point p).m_hint = s.m_hint) ∧
    ((s.set_last_curve cv).m_traits = s.m_traits ∧
      (s.set_last_curve cv).m_curve = s.m_curve ∧
      (s.set_last_curve cv).m_lastPoint = s.m_lastPoint ∧
      (s.set_last_curve cv).m_lastSubCurve = s.m_lastSubCurve ∧
      (s.set_last_curve cv).m_isRightSide = s.m_isRightSide ∧
      (s.set_last_curve cv).m_source = s.m_source ∧
      (s.set_last_curve cv).m_target = s.m_target ∧
      (s.set_last_curve cv).m_hint = s.m_hint) ∧
    ((s.set_last_subcurve cv2).m_traits = s.m_traits ∧
      (s.set_last_subcurve cv2).m_curve = s.m_curve ∧
      (s.set_last_subcurve cv2).m_lastPoint = s.m_lastPoint ∧
      (s.set_last_subcurve cv2).m_lastCurve = s.m_lastCurve ∧
      (s.set_last_subcurve cv2).m_isRightSide = s.m_isRightSide ∧
      (s.set_last_subcurve cv2).m_source = s.m_source ∧
      (s.set_last_subcurve cv2).m_target = s.m_target ∧
      (s.set_last_subcurve cv2).m_hint = s.m_hint) ∧
    ((s.set_hint hint).m_traits = s.m_traits ∧
      (s.set_hint hint).m_curve = s.m_curve ∧
      (s.set_hint hint).m_lastPoint = s.m_lastPoint ∧
      (s.set_hint hint).m_lastCurve = s.m_lastCurve ∧
      (s.set_hint hint).m_lastSubCurve = s.m_lastSubCurve ∧
      (s.set_hint hint).m_isRightSide = s.m_isRightSide ∧
      (s.set_hint hint).m_source = s.m_source ∧
      (s.set_hint hint).m_target = s.m_target) :=
  ⟨⟨rfl, rfl, rfl, rfl, rfl, rfl, rfl, rfl⟩,
    ⟨rfl, rfl, rfl, rfl, rfl, rfl, rfl, rfl⟩,
    ⟨rfl, rfl, rfl, rfl, rfl, rfl, rfl, rfl⟩,
    ⟨rfl, rfl, rfl, rfl, rfl, rfl, rfl, rfl⟩⟩

/-- C9: with assertions enabled, `init` and the two-argument constructor
abort exactly on a curve whose endpoints compare `EQUAL`; with
assertions compiled out, such a curve falls through the non-`LARGER`
branch of either entry point and is accepted silently with
`m_isRightSide = true`, `m_lastPoint` the source and `m_lastCurve` the
full curve; when the endpoints compare unequal the assertion holds and
the checked and unchecked versions of both entry points agree. -/
theorem degenerate_assertion_fallthrough {P C : Type}
    (traits : SweepLineTraits P C) (curve : C)
    (s : Sweep_line_subcurve P C) (sub0 : C) (hint0 : Nat) :
    (s.initChecked curve traits = none ↔
      traits.compare_xy (traits.curve_source curve)
        (traits.curve_target curve) = Ordering.eq) ∧
    (Sweep_line_subcurve.constructChecked curve traits sub0 hint0 = none ↔
      traits.compare_xy (traits.curve_source curve)
        (traits.curve_target curve) = Ordering.eq) ∧
    (traits.compare_xy (traits.curve_source curve)
        (traits.curve_target curve) = Ordering.eq →
      (s.init curve traits).m_isRightSide = true ∧
      (s.init curve traits).m_lastPoint = traits.curve_source curve ∧
      (s.init curve traits).m_lastCurve = curve ∧
      (Sweep_line_subcurve.construct curve traits sub0
        hint0).m_isRightSide = true ∧
      (Sweep_line_subcurve.construct curve traits sub0 hint0).m_lastPoint =
        traits.curve_source curve ∧
      (Sweep_line_subcurve.construct curve traits sub0 hint0).m_lastCurve =
        curve) ∧
    (traits.compare_xy (traits.curve_source curve)
        (traits.curve_target curve) ≠ Ordering.eq →
      s.initChecked curve traits = some (s.init curve traits) ∧
      Sweep_line_subcurve.constructChecked curve traits sub0 hint0 =
        some (Sweep_line_subcurve.construct curve traits sub0 hint0)) := by
  cases hres : traits.compare_xy (traits.curve_source curve)
      (traits.curve_target curve) <;>
    simp [Sweep_line_subcurve.initChecked, Sweep_line_subcurve.init,
      Sweep_line_subcurve.constructChecked, Sweep_line_subcurve.construct,
      hres]

/-- C9 witness: the degenerate segment from (3,4) to (3,4) is accepted by
unchecked `init` and the unchecked constructor with
`m_isRightSide = true`, `m_lastPoint = (3,4)` and `m_lastCurve` the
degenerate curve, while both checked entry points abort; on the
nondegenerate Scenario A curve checked and unchecked agree for both. -/
theorem degenerate_assertion_fallthrough_witness :
    blankSub.initChecked degSeg intTraits = none ∧
    Sweep_line_subcurve.constructChecked degSeg intTraits dummySeg 0 = none ∧
    (blankSub.init degSeg intTraits).m_isRightSide = true ∧
    (blankSub.init degSeg intTraits).m_lastPoint = ((3 : Int), (4 : Int)) ∧
    (blankSub.init degSeg intTraits).m_lastCurve = degSeg ∧
    (Sweep_line_subcurve.construct degSeg intTraits dummySeg
      0).m_isRightSide = true ∧
    (Sweep_line_subcurve.construct degSeg intTraits dummySeg 0).m_lastPoint =
      ((3 : Int), (4 : Int)) ∧
    (Sweep_line_subcurve.construct degSeg intTraits dummySeg 0).m_lastCurve =
      degSeg ∧
    blankSub.initChecked segA intTraits = some (blankSub.init segA intTraits) ∧
    Sweep_line_subcurve.constructChecked segA intTraits dummySeg 0 =
      some (Sweep_line_subcurve.construct segA intTraits dummySeg 0) := by
  have h1 := degenerate_assertion_fallthrough intTraits degSeg blankSub
    dummySeg 0
  have h2 := degenerate_assertion_fallthrough intTraits segA blankSub
    dummySeg 0
  have hdeg := h1.2.2.1 (by decide)
  have hgood := h2.2.2.2 (by decide)
  exact ⟨h1.1.mpr (by decide), h1.2.1.mpr (by decide), hdeg.1, hdeg.2.1,
    hdeg.2.2.1, hdeg.2.2.2.1, hdeg.2.2.2.2.1, hdeg.2.2.2.2.2, hgood.1,
    hgood.2⟩

/-- C10: `init` on an already-initialized subcurve resets `m_traits`,
`m_curve`, `m_source`, `m_target`, `m_lastPoint`, `m_isRightSide` and
`m_lastCurve` from the new curve, but leaves `m_lastSubCurve` and
`m_hint` unchanged, carrying over their previous values. -/
theorem init_resets_but_keeps_lastSubCurve_hint {P C : Type}
    (s : Sweep_line_subcurve P C) (curve : C)
    (traits : SweepLineTraits P C) :
    (s.init curve traits).m_lastSubCurve = s.m_lastSubCurve ∧
    (s.init curve traits).m_hint = s.m_hint ∧
    (s.init curve traits).m_traits = traits ∧
    (s.init curve traits).m_curve = curve ∧
    (s.init curve traits).m_source = traits.curve_source curve ∧
    (s.init curve traits).m_target = traits.curve_target curve ∧
    (s.init curve traits).m_lastCurve = curve ∧
    (s.init curve traits).m_isRightSide =
      decide (traits.compare_xy (traits.curve_source curve)
        (traits.curve_target curve) ≠ Ordering.gt) ∧
    (s.init curve traits).m_lastPoint =
      (if traits.compare_xy (traits.curve_source curve)
          (traits.curve_target curve) = Ordering.gt
        then traits.curve_target curve else traits.curve_source curve) := by
  rw [init_fields]
  exact ⟨rfl, rfl, rfl, rfl, rfl, rfl, rfl, rfl, rfl⟩

/-- C3: at any fixed reference x-position the status-line comparator is
antisymmetric over two curves active there, transitive over three curves
active there, and consistent with the curves' vertical order at that
position. -/
theorem status_line_less_strict_weak_order (x : ℚ)
    (a b c : Sweep_line_subcurve RatPoint RatSegment)
    (ha : activeAt a.m_curve x) (hb : activeAt b.m_curve x)
    (hc : activeAt c.m_curve x) :
    ¬(status_line_curve_less x a b = true ∧
        status_line_curve_less x b a = true) ∧
    (status_line_curve_less x a b = true →
      status_line_curve_less x b c = true →
      status_line_curve_less x a c = true) ∧
    (yAt a.m_curve x < yAt b.m_curve x →
      status_line_curve_less x a b = true) := by
  refine ⟨?_, ?_, ?_⟩
  · rintro ⟨hab, hba⟩
    rw [status_line_curve_less_iff] at hab hba
    rcases hab with h | ⟨he, hs⟩ <;> rcases hba with h' | ⟨he', hs'⟩ <;> linarith
  · intro hab hbc
    rw [status_line_curve_less_iff] at hab hbc ⊢
    rcases hab with h | ⟨he, hs⟩ <;> rcases hbc with h' | ⟨he', hs'⟩
    · exact Or.inl (lt_trans h h')
    · exact Or.inl (by rw [← he']; exact h)
    · exact Or.inl (by rw [he]; exact h')
    · exact Or.inr ⟨he.trans he', lt_trans hs hs'⟩
  · intro hlt
    exact (status_line_curve_less_iff x a b).mpr (Or.inl hlt)

/-- A concrete subcurve over the horizontal segment at height 0. -/
def subA : Sweep_line_subcurve RatPoint RatSegment :=
  ⟨ratTraits, ⟨(0, 0), (10, 0)⟩, (0, 0), ⟨(0, 0), (10, 0)⟩, ⟨(0, 0), (10, 0)⟩,
    true, (0, 0), (10, 0), 0⟩

/-- A concrete subcurve over the horizontal segment at height 1. -/
def subB : Sweep_line_subcurve RatPoint RatSegment :=
  ⟨ratTraits, ⟨(0, 1), (10, 1)⟩, (0, 1), ⟨(0, 1), (10, 1)⟩, ⟨(0, 1), (10, 1)⟩,
    true, (0, 1), (10, 1), 0⟩

/-- A concrete subcurve over the horizontal segment at height 2. -/
def subC : Sweep_line_subcurve RatPoint RatSegment :=
  ⟨ratTraits, ⟨(0, 2), (10, 2)⟩, (0, 2), ⟨(0, 2), (10, 2)⟩, ⟨(0, 2), (10, 2)⟩,
    true, (0, 2), (10, 2), 0⟩

/-- C3 witness: three horizontal curves at heights 0, 1, 2, all active at
reference position 5: the comparator is antisymmetric on the lower pair
and orders the bottom curve below the top one by transitivity. -/
theorem status_line_less_strict_weak_order_witness :
    activeAt subA.m_curve 5 ∧
    ¬(status_line_curve_less 5 subA subB = true ∧
        status_line_curve_less 5 subB subA = true) ∧
    status_line_curve_less 5 subA subC = true := by
  have hA : activeAt subA.m_curve 5 :=
    ⟨by norm_num [subA], by norm_num [subA, min_def],
      by norm_num [subA, max_def]⟩
  have hB : activeAt subB.m_curve 5 :=
    ⟨by norm_num [subB], by norm_num [subB, min_def],
      by norm_num [subB, max_def]⟩
  have hC : activeAt subC.m_curve 5 :=
    ⟨by norm_num [subC], by norm_num [subC, min_def],
      by norm_num [subC, max_def]⟩
  have hab : status_line_curve_less 5 subA subB = true :=
    (status_line_curve_less_iff 5 subA subB).mpr
      (Or.inl (by norm_num [subA, subB, yAt]))
  have hbc : status_line_curve_less 5 subB subC = true :=
    (status_line_curve_less_iff 5 subB subC).mpr
      (Or.inl (by norm_num [subB, subC, yAt]))
  have h := status_line_less_strict_weak_order 5 subA subB subC hA hB hC
  exact ⟨hA, h.1, h.2.1 hab hbc⟩

/-- C4 counterexample: `set_last_point` performs no validation, so a
single call can move `m_lastPoint` leftward in the sweep order and off
the curve: on the Scenario A subcurve (curve from (0,0) to (10,10),
`m_lastPoint = (0,0)`), calling `set_last_point((-5,-5))` leaves
`m_lastPoint` strictly left of its previous value and not on the curve. -/
theorem set_last_point_moves_left :
    compareXY ((scenarioA.set_last_point (-5, -5)).get_last_point)
        scenarioA.get_last_point = Ordering.lt ∧
    onSegment scenarioA.get_curve
        ((scenarioA.set_last_point (-5, -5)).get_last_point) = false :=
  ⟨rfl, rfl⟩

/-- C4 (amended): provided every point passed to `set_last_point` lies on
the curve and is not left of the current `m_lastPoint` in the sweep order
(the caller obligation stated by the spec), `m_lastPoint` starts at the
curve's left endpoint, always lies on the curve, and only moves rightward
along the sweep order. -/
theorem lastPoint_invariant (s0 : Sweep_line_subcurve IntPoint IntSegment)
    (c : IntSegment) (ps : List IntPoint)
    (hv : ValidFrom c (s0.init c intTraits).get_last_point ps) :
    (s0.init c intTraits).get_last_point = (s0.init c intTraits).get_left_end ∧
    onSegment c
      (applyLastPoints (s0.init c intTraits) ps).get_last_point = true ∧
    lexLe (s0.init c intTraits).get_last_point
      (applyLastPoints (s0.init c intTraits) ps).get_last_point := by
  have hstart : (s0.init c intTraits).get_last_point =
      (s0.init c intTraits).get_left_end := by
    rw [Sweep_line_subcurve.get_last_point, Sweep_line_subcurve.get_left_end,
      init_fields]
    by_cases hres : intTraits.compare_xy (intTraits.curve_source c)
        (intTraits.curve_target c) = Ordering.gt <;>
      simp [hres, Sweep_line_subcurve.is_source_left_to_target]
  have hon : onSegment c (s0.init c intTraits).m_lastPoint = true := by
    rw [init_fields]
    by_cases hres : compareXY c.source c.target = Ordering.gt
    · simpa [hres, intTraits] using onSegment_target c
    · simpa [hres, intTraits] using onSegment_source c
  have h := validFrom_fold c ps (s0.init c intTraits) hon hv
  exact ⟨hstart, h.1, h.2⟩

/-- C4 witness: on the Scenario A curve from (0,0) to (10,10), the valid
call sequence (5,5), (10,10) keeps `m_lastPoint` on the curve, starting
at the left endpoint (0,0) and ending at (10,10), never moving left. -/
theorem lastPoint_invariant_witness :
    (blankSub.init segA intTraits).get_last_point =
      (blankSub.init segA intTraits).get_left_end ∧
    onSegment segA
      (applyLastPoints (blankSub.init segA intTraits)
        [(5, 5), (10, 10)]).get_last_point = true ∧
    lexLe (blankSub.init segA intTraits).get_last_point
      (applyLastPoints (blankSub.init segA intTraits)
        [(5, 5), (10, 10)]).get_last_point :=
  lastPoint_invariant blankSub segA [(5, 5), (10, 10)]
    ⟨by decide, by decide, by decide, by decide, trivial⟩

/-- C5: for a subcurve whose kernel point equality is reflexive and
faithful and whose cached endpoints differ, the left- and right-endpoint
queries return `{m_source, m_target}` exactly, the left endpoint is
classified as a left end, no point is classified as both a left end and
a right end, and both queries are decided solely by the cached
`m_isRightSide` flag. -/
theorem end_queries_spec {P C : Type} (s : Sweep_line_subcurve P C)
    (hrefl : ∀ p, s.m_traits.point_equal p p = true)
    (hfaith : ∀ p q, s.m_traits.point_equal p q = true → p = q)
    (hne : s.m_source ≠ s.m_target) (p : P) :
    ((s.get_left_end = s.get_source ∧ s.get_right_end = s.get_target) ∨
      (s.get_left_end = s.get_target ∧ s.get_right_end = s.get_source)) ∧
    s.is_left_end s.get_left_end = true ∧
    ¬(s.is_left_end p = true ∧ s.is_right_end p = true) ∧
    s.get_left_end = (if s.m_isRightSide then s.m_source else s.m_target) ∧
    s.get_right_end = (if s.m_isRightSide then s.m_target else s.m_source) := by
  have hl2 : s.get_left_end =
      (if s.m_isRightSide then s.m_source else s.m_target) := rfl
  have hr2 : s.get_right_end =
      (if s.m_isRightSide then s.m_target else s.m_source) := rfl
  refine ⟨?_, ?_, ?_, hl2, hr2⟩
  · cases hside : s.m_isRightSide
    · exact Or.inr ⟨by simp [hl2, hside, Sweep_line_subcurve.get_target],
        by simp [hr2, hside, Sweep_line_subcurve.get_source]⟩
    · exact Or.inl ⟨by simp [hl2, hside, Sweep_line_subcurve.get_source],
        by simp [hr2, hside, Sweep_line_subcurve.get_target]⟩
  · cases hside : s.m_isRightSide
    · have hlt : s.get_left_end = s.m_target := by simp [hl2, hside]
      simp [Sweep_line_subcurve.is_left_end,
        Sweep_line_subcurve.is_source_left_to_target, hside, hlt,
        Sweep_line_subcurve.is_target, hrefl]
    · have hls : s.get_left_end = s.m_source := by simp [hl2, hside]
      simp [Sweep_line_subcurve.is_left_end,
        Sweep_line_subcurve.is_source_left_to_target, hside, hls,
        Sweep_line_subcurve.is_source, hrefl]
  · rintro ⟨hlp, hrp⟩
    simp only [Sweep_line_subcurve.is_left_end, Sweep_line_subcurve.is_right_end,
      Sweep_line_subcurve.is_source_left_to_target,
      Sweep_line_subcurve.is_source, Sweep_line_subcurve.is_target] at hlp hrp
    cases hside : s.m_isRightSide <;> rw [hside] at hlp hrp <;>
      simp only [Bool.true_and, Bool.false_and, Bool.not_true, Bool.not_false,
        Bool.false_or, Bool.or_false] at hlp hrp
    · exact hne ((hfaith p s.m_source hrp).symm.trans (hfaith p s.m_target hlp))
    · exact hne ((hfaith p s.m_source hlp).symm.trans (hfaith p s.m_target hrp))

/-- C5 witness: Scenario B, the curve from (10,0) to (0,10):
`m_isRightSide = false`, the left endpoint is (0,10), it is classified as
a left end, and (0,10) is not classified as both a left and a right end. -/
theorem end_queries_spec_witness :
    scenarioB.is_source_left_to_target = false ∧
    scenarioB.get_left_end = ((0 : Int), (10 : Int)) ∧
    scenarioB.is_left_end scenarioB.get_left_end = true ∧
    ¬(scenarioB.is_left_end ((0 : Int), (10 : Int)) = true ∧
        scenarioB.is_right_end ((0 : Int), (10 : Int)) = true) := by
  have h := end_queries_spec scenarioB (fun p => decide_eq_true rfl)
    (fun p q hpq => of_decide_eq_true hpq) (by decide)
    ((0 : Int), (10 : Int))
  exact ⟨by decide, by decide, h.2.1, h.2.2.1⟩
